import Mathlib

/-!
Formal model of `dbus/_dbus.py` (python-dbus): the `Bus` class, a
shared-connection singleton registry over `BusConnection`.

Modelling decisions:
* Python object identity is modelled by allocation order: every successful
  `BusConnection.__new__` hands out the next natural number `nextId`.
  Identity equality (`is`) between handles is equality of these ids.
* The class-level dict `Bus._shared_instances` is an association list from
  bus type (a `Nat`: `BUS_SESSION = 0`, `BUS_SYSTEM = 1`, `BUS_STARTER = 2`,
  matching libdbus) to a connection id.  Dict assignment replaces the entry
  for the key; `del` removes it; an absent key raises `KeyError` on lookup.
* The external collaborator `BusConnection.__new__` (the transport connect)
  is modelled by a boolean `ok` per call: `true` means the connect succeeds
  and yields a fresh object, `false` means it raises, which `bus_new`
  propagates as `connectError`.  `super().close()` is modelled by recording
  the handle id in the `closed` list.
* Exceptions are the `Except` monad.  In the source, every raise in
  `Bus.__new__` and the `KeyError` in `Bus.close` happen before any mutation
  of shared state, so an error result leaves the state exactly as it was.
-/

/-- Bus type constant `BUS_SESSION` from `_dbus_bindings`. -/
def BUS_SESSION : Nat := 0

/-- Bus type constant `BUS_SYSTEM` from `_dbus_bindings`. -/
def BUS_SYSTEM : Nat := 1

/-- Bus type constant `BUS_STARTER` from `_dbus_bindings`. -/
def BUS_STARTER : Nat := 2

/-- Python exceptions that the modelled code can raise. -/
inductive PyErr where
  | valueError
  | connectError
  | keyError
deriving DecidableEq, Repr

/-- Dict lookup on an association list (first match wins). -/
def rlookup : List (Nat × Nat) → Nat → Option Nat
  | [], _ => none
  | p :: rest, k => if p.1 = k then some p.2 else rlookup rest k

/-- Dict `del`: remove every pair with the given key. -/
def rremove : List (Nat × Nat) → Nat → List (Nat × Nat)
  | [], _ => []
  | p :: rest, k => if p.1 = k then rremove rest k else p :: rremove rest k

/-- Dict assignment: replace any existing entry for the key. -/
def rinsert (l : List (Nat × Nat)) (k v : Nat) : List (Nat × Nat) :=
  (k, v) :: rremove l k

/-- The process-wide state touched by the `Bus` class.

* `shared_instances` models the class attribute `Bus._shared_instances`,
  mapping a bus type to the id of the shared connection.
* `handles` records, for every `Bus` object ever constructed, the pair
  (id, `_bus_type` attribute).
* `nextId` is the allocator for object identities.
* `closed` records every id on which `super(Bus, self).close()` was invoked.
* `constructions` counts successful `BusConnection.__new__` calls, i.e.
  underlying transport connects. -/
structure BusState where
  shared_instances : List (Nat × Nat) := []
  handles : List (Nat × Nat) := []
  nextId : Nat := 0
  closed : List Nat := []
  constructions : Nat := 0
deriving DecidableEq, Repr

/-- The state at interpreter start: empty registry, nothing constructed. -/
def initState : BusState := {}

/-- A bus type accepted by the subclass-selection chain of `Bus.__new__`. -/
def validBT (bt : Nat) : Prop :=
  bt = BUS_SESSION ∨ bt = BUS_SYSTEM ∨ bt = BUS_STARTER

instance (bt : Nat) : Decidable (validBT bt) := by
  unfold validBT; infer_instance

/-- The state produced by the construction path of `Bus.__new__`:
`BusConnection.__new__` allocates a fresh object, `bus._bus_type` is set,
and, when not private, `cls._shared_instances[bus_type] = bus`. -/
def constructState (bus_type : Nat) (priv : Bool) (s : BusState) : BusState :=
  { shared_instances :=
      if priv = false then rinsert s.shared_instances bus_type s.nextId
      else s.shared_instances,
    handles := (s.nextId, bus_type) :: s.handles,
    nextId := s.nextId + 1,
    closed := s.closed,
    constructions := s.constructions + 1 }

/-- Model of `Bus.__new__(cls, bus_type, private, mainloop)`
(src/dbus/_dbus.py lines 64-114).  Returns the id of the resulting handle
together with the updated process state.

Source shape: `if (not private and bus_type in cls._shared_instances):
return cls._shared_instances[bus_type]`; then the subclass-selection chain
raising `ValueError('invalid bus_type ...')` on an unknown value; then
`bus = BusConnection.__new__(subclass, bus_type, mainloop=mainloop)` (the
fallible transport connect, modelled by `ok`); then
`bus._bus_type = bus_type`; then, `if not private`,
`cls._shared_instances[bus_type] = bus`; finally `return bus`. -/
def bus_new (bus_type : Nat) (priv ok : Bool) (s : BusState) :
    Except PyErr (Nat × BusState) :=
  if priv = false ∧ rlookup s.shared_instances bus_type ≠ none then
    Except.ok ((rlookup s.shared_instances bus_type).getD 0, s)
  else if validBT bus_type then
    if ok then
      Except.ok (s.nextId, constructState bus_type priv s)
    else
      Except.error PyErr.connectError
  else
    Except.error PyErr.valueError

/-- Model of `Bus.close(self)` (src/dbus/_dbus.py lines 116-120), invoked on
the handle with id `i` whose `_bus_type` attribute is `t`.

Source shape: `t = self._bus_type`; then the unguarded dict lookup
`self.__class__._shared_instances[t]`, which raises `KeyError` when `t` has
no entry; `if ... is self: del self.__class__._shared_instances[t]`; then
`super(Bus, self).close()`. -/
def bus_close (i t : Nat) (s : BusState) : Except PyErr BusState :=
  match rlookup s.shared_instances t with
  | none => Except.error PyErr.keyError
  | some cur =>
      let s1 :=
        if cur = i then
          { s with shared_instances := rremove s.shared_instances t }
        else s
      Except.ok { s1 with closed := i :: s1.closed }

/-- One call through the public interface: an acquisition
(`Bus(bus_type, private)`, with `ok` saying whether the transport connect
would succeed) or a `close()` on the handle with id `i`. -/
inductive Op where
  | acquire (bus_type : Nat) (priv ok : Bool)
  | close (i : Nat)
deriving DecidableEq, Repr

/-- Run one call.  A raised exception propagates to the caller and, since
every raise in the source happens before any mutation, leaves the state
unchanged.  A `close` on an id that was never constructed cannot happen in
Python (there is no such object) and is a no-op here. -/
def runOp (s : BusState) : Op → BusState
  | Op.acquire bus_type priv ok =>
      match bus_new bus_type priv ok s with
      | Except.ok r => r.2
      | Except.error _ => s
  | Op.close i =>
      match rlookup s.handles i with
      | none => s
      | some t =>
          match bus_close i t s with
          | Except.ok s' => s'
          | Except.error _ => s

/-- Run a sequence of calls from a starting state. -/
def run (tr : List Op) (s : BusState) : BusState :=
  tr.foldl runOp s

/-- An op that is not a `close()` call. -/
def isClose : Op → Bool
  | Op.close _ => true
  | _ => false

/-- A trace with no `close()` call in it. -/
def CloseFree (tr : List Op) : Prop := ∀ op ∈ tr, isClose op = false

/-- Well-formedness of a `BusState`, satisfied by every state reachable
through the public interface:
ids of constructed handles are below the allocator; closed ids were
allocated; every registry entry points at a constructed handle whose
`_bus_type` equals its key; registered connections are not closed; and
registry keys are valid bus types; and registry keys are unique, in
the sense that looking up any member's key finds that member's value. -/
def WF (s : BusState) : Prop :=
  (∀ p ∈ s.handles, p.1 < s.nextId) ∧
  (∀ i ∈ s.closed, i < s.nextId) ∧
  (∀ p ∈ s.shared_instances, rlookup s.handles p.2 = some p.1) ∧
  (∀ p ∈ s.shared_instances, p.2 ∉ s.closed) ∧
  (∀ p ∈ s.shared_instances, validBT p.1) ∧
  (∀ p ∈ s.shared_instances, rlookup s.shared_instances p.1 = some p.2)

instance (s : BusState) : Decidable (WF s) := by
  unfold WF
  infer_instance

/-! ### Interleaved model for concurrent first acquisition

`Bus.__new__` holds no lock, so between its read of `cls._shared_instances`
and its write to it another thread can run.  The non-private acquisition of
a valid bus type `k` decomposes into three atomic accesses to shared state:
the cache check (line 90), the transport construction
`BusConnection.__new__` (line 107), and the registry insertion (line 112).
A thread's program counter records how far it has got. -/

/-- Per-thread view: program counter (0 = before the cache check, 1 = before
construction, 2 = before insertion, 3 = returned) and the handle id this
thread will return. -/
structure ThreadView where
  pc : Nat := 0
  res : Option Nat := none
deriving DecidableEq, Repr

/-- Global state shared by two threads running `Bus.__new__` concurrently. -/
structure ParState where
  shared_instances : List (Nat × Nat) := []
  nextId : Nat := 0
  constructions : Nat := 0
  t0 : ThreadView := {}
  t1 : ThreadView := {}
deriving DecidableEq, Repr

/-- One atomic step of `Bus.__new__(k, private=False)` by the thread whose
view is `tv`, returning the updated global component and thread view. -/
def threadStep (k : Nat) (g : ParState) (tv : ThreadView) :
    ParState × ThreadView :=
  match tv.pc with
  | 0 =>
      match rlookup g.shared_instances k with
      | some a => (g, { tv with pc := 3, res := some a })
      | none => (g, { tv with pc := 1 })
  | 1 =>
      ({ g with nextId := g.nextId + 1, constructions := g.constructions + 1 },
       { tv with pc := 2, res := some g.nextId })
  | 2 =>
      ({ g with shared_instances :=
           rinsert g.shared_instances k (tv.res.getD 0) },
       { tv with pc := 3 })
  | _ => (g, tv)

/-- Run a schedule: `false` steps thread 0, `true` steps thread 1. -/
def parRun (k : Nat) : List Bool → ParState → ParState
  | [], g => g
  | b :: rest, g =>
      if b then
        let r := threadStep k g g.t1
        parRun k rest { r.1 with t1 := r.2 }
      else
        let r := threadStep k g g.t0
        parRun k rest { r.1 with t0 := r.2 }

/-- The schedule in which both threads pass the cache check before either
inserts: check 0, check 1, construct 0, insert 0, construct 1, insert 1. -/
def raceSchedule : List Bool := [false, true, false, false, true, true]

/-- Final state of two threads running the first non-private acquisition of
`BUS_SESSION` under `raceSchedule`, from an empty registry. -/
def raceFinal : ParState := parRun BUS_SESSION raceSchedule {}

/-- State after the first shared (non-private) acquisition of the session
bus from a fresh interpreter. -/
def stateShared : BusState :=
  { shared_instances := [(0, 0)], handles := [(0, 0)], nextId := 1,
    closed := [], constructions := 1 }

/-- State after closing that shared session handle: registry evicted and the
transport close recorded. -/
def stateEvicted : BusState :=
  { shared_instances := [], handles := [(0, 0)], nextId := 1,
    closed := [0], constructions := 1 }

/-- State after a second shared acquisition of the session bus: a fresh
connection with id 1 is registered. -/
def stateReplaced : BusState :=
  { shared_instances := [(0, 1)], handles := [(1, 0), (0, 0)], nextId := 2,
    closed := [0], constructions := 2 }

/-- State after a private acquisition of the session bus from a fresh
interpreter: nothing registered. -/
def statePrivate : BusState :=
  { shared_instances := [], handles := [(0, 0)], nextId := 1,
    closed := [], constructions := 1 }

/-- State holding a shared session connection (id 1) alongside an earlier
private handle (id 0) for the same bus type. -/
def statePrivAndShared : BusState :=
  { shared_instances := [(0, 1)], handles := [(1, 0), (0, 0)], nextId := 2,
    closed := [], constructions := 2 }

/-- State after additionally invoking `close()` a second time on the stale
handle 0 while handle 1 is the registered session connection. -/
def stateStale : BusState :=
  { shared_instances := [(0, 1)], handles := [(1, 0), (0, 0)], nextId := 2,
    closed := [0, 0], constructions := 2 }

/-- State after a private session acquisition performed while handle 0 is
the registered shared session connection. -/
def stateSharedAndPriv : BusState :=
  { shared_instances := [(0, 0)], handles := [(1, 0), (0, 0)], nextId := 2,
    closed := [], constructions := 2 }

/-! ### Basic association-list lemmas -/

theorem rlookup_mem {l : List (Nat × Nat)} {k v : Nat}
    (h : rlookup l k = some v) : (k, v) ∈ l := by
  induction l with
  | nil => simp [rlookup] at h
  | cons p rest ih =>
      simp only [rlookup] at h
      split at h
      · rename_i hp
        cases h
        have hpk : p = (k, p.2) := by
          cases p; simp_all
        exact List.mem_cons.mpr (Or.inl hpk.symm)
      · exact List.mem_cons_of_mem _ (ih h)

theorem rlookup_rinsert_self (l : List (Nat × Nat)) (k v : Nat) :
    rlookup (rinsert l k v) k = some v := by
  simp [rinsert, rlookup]

theorem mem_rremove {l : List (Nat × Nat)} {k : Nat} {p : Nat × Nat}
    (h : p ∈ rremove l k) : p ∈ l ∧ p.1 ≠ k := by
  induction l with
  | nil => simp [rremove] at h
  | cons q rest ih =>
      simp only [rremove] at h
      split at h
      · exact ⟨List.mem_cons_of_mem _ (ih h).1, (ih h).2⟩
      · rename_i hq
        rcases List.mem_cons.mp h with h1 | h1
        · exact ⟨by simp [h1], by simp [h1]; exact hq⟩
        · exact ⟨List.mem_cons_of_mem _ (ih h1).1, (ih h1).2⟩

theorem rlookup_rremove_self (l : List (Nat × Nat)) (k : Nat) :
    rlookup (rremove l k) k = none := by
  induction l with
  | nil => simp [rremove, rlookup]
  | cons p rest ih =>
      simp only [rremove]
      split
      · exact ih
      · simp only [rlookup]
        rename_i hp
        simp [hp, ih]

theorem rlookup_rremove_ne (l : List (Nat × Nat)) (k t : Nat) (h : t ≠ k) :
    rlookup (rremove l k) t = rlookup l t := by
  induction l with
  | nil => simp [rremove]
  | cons p rest ih =>
      simp only [rremove, rlookup]
      split
      · rename_i hp
        have : ¬(p.1 = t) := by
          intro hc
          exact h (hc ▸ hp ▸ rfl)
        simp [this, ih]
      · simp only [rlookup]
        split
        · rfl
        · exact ih

theorem rlookup_rinsert_ne (l : List (Nat × Nat)) (k v t : Nat) (h : t ≠ k) :
    rlookup (rinsert l k v) t = rlookup l t := by
  simp only [rinsert, rlookup]
  have : ¬(k = t) := fun hc => h hc.symm
  simp [this, rlookup_rremove_ne l k t h]

theorem mem_rinsert {l : List (Nat × Nat)} {k v : Nat} {p : Nat × Nat}
    (h : p ∈ rinsert l k v) : p = (k, v) ∨ (p ∈ l ∧ p.1 ≠ k) := by
  rcases List.mem_cons.mp h with h1 | h1
  · exact Or.inl h1
  · exact Or.inr (mem_rremove h1)

/-! ### Case analysis of the two operations -/

/-- A successful `Bus.__new__` either hit the shared-instance cache (leaving
the state untouched) or went through construction. -/
theorem bus_new_ok_cases {bus_type : Nat} {priv ok : Bool} {s : BusState}
    {a : Nat} {s' : BusState}
    (h : bus_new bus_type priv ok s = Except.ok (a, s')) :
    (priv = false ∧ rlookup s.shared_instances bus_type = some a ∧ s' = s) ∨
    ((priv = true ∨ rlookup s.shared_instances bus_type = none) ∧
      validBT bus_type ∧ ok = true ∧ a = s.nextId ∧
      s' = constructState bus_type priv s) := by
  unfold bus_new at h
  split at h
  · rename_i hc
    obtain ⟨hpriv, hsome⟩ := hc
    cases hlk : rlookup s.shared_instances bus_type with
    | none => exact absurd hlk hsome
    | some x =>
        left
        rw [hlk] at h
        simp only [Option.getD_some] at h
        cases h
        exact ⟨hpriv, rfl, rfl⟩
  · rename_i hc
    split at h
    · rename_i hv
      split at h
      · rename_i hok
        cases h
        right
        refine ⟨?_, hv, by simp [hok], rfl, rfl⟩
        by_cases hp : priv = true
        · exact Or.inl hp
        · have hp' : priv = false := by simp at hp; exact hp
          right
          by_contra hne
          exact hc ⟨hp', hne⟩
      · cases h
    · cases h

/-- A successful `Bus.close` found an entry for the handle's bus type; it
evicted the entry exactly when that entry was the handle itself, and in all
cases invoked the superclass transport close. -/
theorem bus_close_ok_cases {i t : Nat} {s s' : BusState}
    (h : bus_close i t s = Except.ok s') :
    ∃ cur, rlookup s.shared_instances t = some cur ∧
      ((cur = i ∧
        s' = { s with shared_instances := rremove s.shared_instances t,
                      closed := i :: s.closed }) ∨
       (cur ≠ i ∧ s' = { s with closed := i :: s.closed })) := by
  unfold bus_close at h
  cases hlk : rlookup s.shared_instances t with
  | none => rw [hlk] at h; cases h
  | some cur =>
      rw [hlk] at h
      refine ⟨cur, rfl, ?_⟩
      by_cases hcur : cur = i
      · left
        refine ⟨hcur, ?_⟩
        simp only [hcur, if_pos rfl] at h
        cases h
        rfl
      · right
        refine ⟨hcur, ?_⟩
        simp only [if_neg hcur] at h
        cases h
        rfl

/-- Construction never happens when the cache is hit and always bumps the
allocator; in all success cases the allocator does not decrease. -/
theorem bus_new_nextId_mono {bus_type : Nat} {priv ok : Bool} {s : BusState}
    {a : Nat} {s' : BusState}
    (h : bus_new bus_type priv ok s = Except.ok (a, s')) :
    s.nextId ≤ s'.nextId := by
  rcases bus_new_ok_cases h with ⟨_, _, rfl⟩ | ⟨_, _, _, _, rfl⟩
  · exact le_refl _
  · exact Nat.le_succ _

/-! ### Preservation of well-formedness -/

theorem WF_initState : WF initState := by
  refine ⟨?_, ?_, ?_, ?_, ?_, ?_⟩ <;> intro p hp <;> simp [initState] at hp

theorem WF_bus_new {bus_type : Nat} {priv ok : Bool} {s : BusState}
    {a : Nat} {s' : BusState} (hwf : WF s)
    (h : bus_new bus_type priv ok s = Except.ok (a, s')) : WF s' := by
  obtain ⟨wh, wc, wr, wl, wv, wu⟩ := hwf
  rcases bus_new_ok_cases h with ⟨_, _, rfl⟩ | ⟨hmiss, hv, _, _, rfl⟩
  · exact ⟨wh, wc, wr, wl, wv, wu⟩
  · unfold constructState
    by_cases hp : priv = false
    · simp only [hp, if_pos rfl]
      refine ⟨?_, ?_, ?_, ?_, ?_, ?_⟩
      · intro p hp'
        rcases List.mem_cons.mp hp' with h1 | h1
        · simp [h1]
        · exact Nat.lt_succ_of_lt (wh p h1)
      · intro i hi
        exact Nat.lt_succ_of_lt (wc i hi)
      · intro p hp'
        rcases mem_rinsert hp' with h1 | ⟨h1, h2⟩
        · simp [h1, rlookup]
        · have := wr p h1
          simp only [rlookup]
          have hne : ¬(s.nextId = p.2) := by
            intro hc
            have hmem := rlookup_mem this
            have := wh _ hmem
            omega
          simp [hne, this]
      · intro p hp' hcl
        rcases mem_rinsert hp' with h1 | ⟨h1, _⟩
        · have hmem : p.2 = s.nextId := by simp [h1]
          have := wc _ (by simpa [hmem] using hcl)
          omega
        · exact wl p h1 hcl
      · intro p hp'
        rcases mem_rinsert hp' with h1 | ⟨h1, _⟩
        · have : p.1 = bus_type := by simp [h1]
          rw [this]; exact hv
        · exact wv p h1
      · intro p hp'
        show rlookup (rinsert s.shared_instances bus_type s.nextId) p.1 = some p.2
        rcases mem_rinsert hp' with h1 | ⟨h1, h2⟩
        · rw [h1]
          exact rlookup_rinsert_self s.shared_instances bus_type s.nextId
        · rw [rlookup_rinsert_ne s.shared_instances bus_type s.nextId p.1 h2]
          exact wu p h1
    · have hp' : priv = true := by simp at hp; exact hp
      simp only [hp']
      simp only [if_neg (by simp : ¬(true = false))]
      refine ⟨?_, ?_, ?_, ?_, ?_, ?_⟩
      · intro p hq
        rcases List.mem_cons.mp hq with h1 | h1
        · simp [h1]
        · exact Nat.lt_succ_of_lt (wh p h1)
      · intro i hi
        exact Nat.lt_succ_of_lt (wc i hi)
      · intro p hq
        have := wr p hq
        simp only [rlookup]
        have hne : ¬(s.nextId = p.2) := by
          intro hc
          have hmem := rlookup_mem this
          have := wh _ hmem
          omega
        simp [hne, this]
      · intro p hq hcl
        exact wl p hq hcl
      · intro p hq
        exact wv p hq
      · intro p hq
        exact wu p hq


theorem WF_bus_close {i t : Nat} {s s' : BusState} (hwf : WF s)
    (hh : rlookup s.handles i = some t)
    (h : bus_close i t s = Except.ok s') : WF s' := by
  obtain ⟨wh, wc, wr, wl, wv, wu⟩ := hwf
  have hi_lt : i < s.nextId := wh _ (rlookup_mem hh)
  obtain ⟨cur, hcur, hcase⟩ := bus_close_ok_cases h
  rcases hcase with ⟨hci, rfl⟩ | ⟨hci, rfl⟩
  · refine ⟨wh, ?_, ?_, ?_, ?_, ?_⟩
    · intro j hj
      rcases List.mem_cons.mp hj with h1 | h1
      · rw [h1]; exact hi_lt
      · exact wc j h1
    · intro p hp
      exact wr p (mem_rremove hp).1
    · intro p hp hcl
      obtain ⟨hpmem, hpk⟩ := mem_rremove hp
      rcases List.mem_cons.mp hcl with h1 | h1
      · have h2 : rlookup s.handles p.2 = some p.1 := wr p hpmem
        rw [h1, hh] at h2
        exact hpk (Option.some.inj h2).symm
      · exact wl p hpmem h1
    · intro p hp
      exact wv p (mem_rremove hp).1
    · intro p hp
      show rlookup (rremove s.shared_instances t) p.1 = some p.2
      obtain ⟨hpmem, hpk⟩ := mem_rremove hp
      rw [rlookup_rremove_ne s.shared_instances t p.1 hpk]
      exact wu p hpmem
  · refine ⟨wh, ?_, wr, ?_, wv, wu⟩
    · intro j hj
      rcases List.mem_cons.mp hj with h1 | h1
      · rw [h1]; exact hi_lt
      · exact wc j h1
    · intro p hp hcl
      rcases List.mem_cons.mp hcl with h1 | h1
      · have h2 : rlookup s.handles p.2 = some p.1 := wr p hp
        rw [h1, hh] at h2
        have hpt : p.1 = t := (Option.some.inj h2).symm
        have h3 := wu p hp
        rw [hpt, hcur] at h3
        exact hci ((Option.some.inj h3).trans h1)
      · exact wl p hp h1

theorem WF_runOp {s : BusState} (op : Op) (hwf : WF s) : WF (runOp s op) := by
  cases op with
  | acquire bus_type priv ok =>
      cases hb : bus_new bus_type priv ok s with
      | ok r =>
          have hb' : bus_new bus_type priv ok s = Except.ok (r.1, r.2) := by
            rw [hb]
          simpa [runOp, hb] using WF_bus_new hwf hb'
      | error e => simpa [runOp, hb] using hwf
  | close i =>
      cases hl : rlookup s.handles i with
      | none => simpa [runOp, hl] using hwf
      | some t =>
          cases hc : bus_close i t s with
          | ok s' => simpa [runOp, hl, hc] using WF_bus_close hwf hl hc
          | error e => simpa [runOp, hl, hc] using hwf

theorem WF_run_from {s : BusState} (tr : List Op) (hwf : WF s) :
    WF (run tr s) := by
  induction tr generalizing s with
  | nil => exact hwf
  | cons op rest ih =>
      simp only [run, List.foldl_cons] at ih ⊢
      exact ih (WF_runOp op hwf)

theorem WF_run (tr : List Op) : WF (run tr initState) :=
  WF_run_from tr WF_initState

/-! ### Registry entries survive close-free traces -/

theorem rlookup_runOp_no_close {s : BusState} {k a : Nat} {op : Op}
    (hnc : isClose op = false)
    (h : rlookup s.shared_instances k = some a) :
    rlookup (runOp s op).shared_instances k = some a := by
  cases op with
  | close i => simp [isClose] at hnc
  | acquire bus_type priv ok =>
      cases hb : bus_new bus_type priv ok s with
      | error e => simpa [runOp, hb] using h
      | ok r =>
          have hb' : bus_new bus_type priv ok s = Except.ok (r.1, r.2) := by
            rw [hb]
          rcases bus_new_ok_cases hb' with ⟨_, _, hs⟩ | ⟨hmiss, _, _, _, hs⟩
          · simp only [runOp, hb, hs]
            exact h
          · simp only [runOp, hb, hs]
            unfold constructState
            rcases hmiss with hp | hm
            · simp [hp, h]
            · by_cases hpf : priv = false
              · have hne : k ≠ bus_type := by
                  intro hc
                  rw [hc, hm] at h
                  cases h
                simp only [hpf, if_pos rfl, if_true]
                show rlookup (rinsert s.shared_instances bus_type s.nextId) k =
                  some a
                rw [rlookup_rinsert_ne s.shared_instances bus_type s.nextId k hne]
                exact h
              · simp only [if_neg hpf]
                exact h

theorem rlookup_run_closefree {tr : List Op} {s : BusState} {k a : Nat}
    (hcf : CloseFree tr) (h : rlookup s.shared_instances k = some a) :
    rlookup (run tr s).shared_instances k = some a := by
  induction tr generalizing s with
  | nil => exact h
  | cons op rest ih =>
      simp only [run, List.foldl_cons] at ih ⊢
      exact ih (fun o ho => hcf o (List.mem_cons_of_mem _ ho))
        (rlookup_runOp_no_close (hcf op (List.mem_cons_self _ _)) h)

/-! ### Helper lemmas about acquisition results -/

/-- In a well-formed state the next id to be allocated is fresh: it is not
the id of any constructed handle. -/
theorem rlookup_fresh {s : BusState} (hwf : WF s) :
    rlookup s.handles s.nextId = none := by
  cases hx : rlookup s.handles s.nextId with
  | none => rfl
  | some t =>
      have := hwf.1 _ (rlookup_mem hx)
      omega

/-- After a successful non-private acquisition the registry maps the bus
type to the returned handle. -/
theorem bus_new_shared_lookup {k a : Nat} {ok : Bool} {s s1 : BusState}
    (h : bus_new k false ok s = Except.ok (a, s1)) :
    rlookup s1.shared_instances k = some a := by
  rcases bus_new_ok_cases h with ⟨_, hlk, rfl⟩ | ⟨_, _, _, ha, rfl⟩
  · exact hlk
  · subst ha
    exact rlookup_rinsert_self s.shared_instances k s.nextId

/-- The returned handle of a successful non-private acquisition was
allocated before the resulting state's allocator position. -/
theorem bus_new_handle_lt {k a : Nat} {ok : Bool} {s s1 : BusState}
    (hwf : WF s) (h : bus_new k false ok s = Except.ok (a, s1)) :
    a < s1.nextId := by
  rcases bus_new_ok_cases h with ⟨_, hlk, rfl⟩ | ⟨_, _, _, ha, rfl⟩
  · have h5 := hwf.2.2.1 _ (rlookup_mem hlk)
    exact hwf.1 _ (rlookup_mem h5)
  · subst ha
    exact Nat.lt_succ_self _

/-- The returned handle of a successful non-private acquisition is a
constructed object whose `_bus_type` attribute is the requested type. -/
theorem bus_new_handle_type {k a : Nat} {ok : Bool} {s s1 : BusState}
    (hwf : WF s) (h : bus_new k false ok s = Except.ok (a, s1)) :
    rlookup s1.handles a = some k :=
  (WF_bus_new hwf h).2.2.1 _ (rlookup_mem (bus_new_shared_lookup h))

/-- Acquire shared `a`, close it, acquire shared `b` again: the replacement
is a distinct fresh object and is the one registered. -/
theorem acquire_close_acquire {k a b : Nat} {ok1 ok2 : Bool}
    {s s1 s2 s3 : BusState} (hwf : WF s)
    (h1 : bus_new k false ok1 s = Except.ok (a, s1))
    (h2 : bus_close a k s1 = Except.ok s2)
    (h3 : bus_new k false ok2 s2 = Except.ok (b, s3)) :
    b ≠ a ∧ rlookup s3.shared_instances k = some b ∧
      rlookup s2.handles b = none := by
  have hwf1 : WF s1 := WF_bus_new hwf h1
  have hl1 : rlookup s1.shared_instances k = some a := bus_new_shared_lookup h1
  have hh1 : rlookup s1.handles a = some k := bus_new_handle_type hwf h1
  have hwf2 : WF s2 := WF_bus_close hwf1 hh1 h2
  obtain ⟨cur, hcur, hcase⟩ := bus_close_ok_cases h2
  have hcura : cur = a := by
    rw [hl1] at hcur
    exact (Option.some.inj hcur).symm
  rcases hcase with ⟨_, hs2⟩ | ⟨hne, _⟩
  swap
  · exact absurd hcura hne
  have hm2 : rlookup s2.shared_instances k = none := by
    rw [hs2]
    exact rlookup_rremove_self _ _
  have hn2 : s2.nextId = s1.nextId := by rw [hs2]
  rcases bus_new_ok_cases h3 with ⟨_, hlk, _⟩ | ⟨_, _, _, hbval, hs3⟩
  · rw [hm2] at hlk
    cases hlk
  have hba : a < s1.nextId := bus_new_handle_lt hwf h1
  refine ⟨?_, ?_, ?_⟩
  · rw [hbval, hn2]
    omega
  · rw [hs3, hbval]
    exact rlookup_rinsert_self s2.shared_instances k s2.nextId
  · rw [hbval]
    exact rlookup_fresh hwf2

/-! ### The claims -/

/-- Claim C1: for every bus kind, after a non-private acquisition has
returned handle `a`, any further activity that contains no `close()` call
leaves the cache entry in place, so a second non-private acquisition
(whatever the transport would do) finds the kind in the shared-instance map
and returns the identity-same handle `a`, leaving the state untouched and
constructing nothing. -/
theorem C1_singleton {k a : Nat} {ok1 ok2 : Bool} {s s1 : BusState}
    {tr : List Op}
    (h1 : bus_new k false ok1 s = Except.ok (a, s1))
    (hcf : CloseFree tr) :
    bus_new k false ok2 (run tr s1) = Except.ok (a, run tr s1) := by
  have hl2 : rlookup (run tr s1).shared_instances k = some a :=
    rlookup_run_closefree hcf (bus_new_shared_lookup h1)
  unfold bus_new
  rw [if_pos ⟨rfl, by rw [hl2]; exact Option.some_ne_none a⟩, hl2]
  rfl

theorem C1_singleton_witness :
    bus_new BUS_SESSION false true initState = Except.ok (0, stateShared) ∧
    bus_new BUS_SESSION false true (run [] stateShared) =
      Except.ok (0, run [] stateShared) := by
  refine ⟨rfl, ?_⟩
  exact @C1_singleton BUS_SESSION 0 true true initState stateShared [] rfl
    (fun op ho => absurd ho (List.not_mem_nil op))

/-- Claim C2: acquire shared `a` for a kind, close it, acquire shared `b`;
a second, stale `close()` on `a` compares the currently stored instance
with `a`, finds a different object, and therefore does not evict `b`: the
registry still maps the kind to `b` and is unchanged by the stale close. -/
theorem C2_stale_close_guard {k a b : Nat} {ok1 ok2 : Bool}
    {s s1 s2 s3 s4 : BusState} (hwf : WF s)
    (h1 : bus_new k false ok1 s = Except.ok (a, s1))
    (h2 : bus_close a k s1 = Except.ok s2)
    (h3 : bus_new k false ok2 s2 = Except.ok (b, s3))
    (h4 : bus_close a k s3 = Except.ok s4) :
    rlookup s4.shared_instances k = some b ∧
      s4.shared_instances = s3.shared_instances := by
  obtain ⟨hba, hl3, _⟩ := acquire_close_acquire hwf h1 h2 h3
  obtain ⟨cur, hcur, hcase⟩ := bus_close_ok_cases h4
  have hcurb : cur = b := by
    rw [hl3] at hcur
    exact (Option.some.inj hcur).symm
  rcases hcase with ⟨hci, _⟩ | ⟨_, hs4⟩
  · exact absurd (hcurb.symm.trans hci) hba
  · constructor
    · rw [hs4]
      exact hl3
    · rw [hs4]

theorem C2_stale_close_guard_witness :
    bus_new BUS_SESSION false true initState = Except.ok (0, stateShared) ∧
    bus_close 0 BUS_SESSION stateShared = Except.ok stateEvicted ∧
    bus_new BUS_SESSION false true stateEvicted =
      Except.ok (1, stateReplaced) ∧
    bus_close 0 BUS_SESSION stateReplaced = Except.ok stateStale ∧
    rlookup stateStale.shared_instances BUS_SESSION = some 1 ∧
    stateStale.shared_instances = stateReplaced.shared_instances := by
  have hmain := @C2_stale_close_guard BUS_SESSION 0 1 true true initState
    stateShared stateEvicted stateReplaced stateStale WF_initState
    rfl rfl rfl rfl
  exact ⟨rfl, rfl, rfl, rfl, hmain.1, hmain.2⟩

/-- Claim C3: the claim requires that when two threads concurrently perform
the first non-private acquisition of a never-before-seen kind, exactly one
transport construction occurs and both observe the same handle.  The code
has no lock, and under the interleaving in which both threads pass the
cache check before either registers (`raceSchedule`), both complete, two
transport constructions occur, the threads return distinct handles, and the
second registration silently overwrites the first, leaking connection 0. -/
theorem C3_concurrent_first_acquire_race :
    raceFinal.t0.pc = 3 ∧ raceFinal.t1.pc = 3 ∧
    raceFinal.constructions = 2 ∧
    raceFinal.t0.res = some 0 ∧ raceFinal.t1.res = some 1 ∧
    raceFinal.t0.res ≠ raceFinal.t1.res ∧
    rlookup raceFinal.shared_instances BUS_SESSION = some 1 := by
  decide

/-- Claim C4 counterexample: the claim says a private handle's `close()`
never reads the shared-instance registry and always closes the underlying
connection.  In fact `Bus.close` begins with the unguarded lookup
`self.__class__._shared_instances[t]`: closing a private session handle
while no shared session entry exists raises `KeyError`, and the transport
close is never reached. -/
theorem C4_private_close_counterexample :
    bus_new BUS_SESSION true true initState = Except.ok (0, statePrivate) ∧
    bus_close 0 BUS_SESSION statePrivate = Except.error PyErr.keyError ∧
    runOp statePrivate (Op.close 0) = statePrivate ∧
    0 ∉ statePrivate.closed := by
  refine ⟨rfl, rfl, rfl, by decide⟩

/-- Claim C4 as amended: a private handle's `close()` never modifies the
shared-instance registry, but it does read it.  When the handle's kind has
an entry (necessarily some other, shared instance), the identity check
fails, the registry is left unchanged and the underlying connection is
closed; when the kind has no entry, the lookup raises `KeyError` and the
underlying close is not invoked. -/
theorem C4_private_close {i t : Nat} {s : BusState}
    (hnot : ∀ x, rlookup s.shared_instances t = some x → x ≠ i) :
    (rlookup s.shared_instances t = none →
      bus_close i t s = Except.error PyErr.keyError) ∧
    (∀ x, rlookup s.shared_instances t = some x →
      bus_close i t s = Except.ok { s with closed := i :: s.closed }) := by
  constructor
  · intro hmiss
    unfold bus_close
    rw [hmiss]
  · intro x hx
    unfold bus_close
    rw [hx]
    simp only [if_neg (hnot x hx)]

theorem C4_private_close_witness :
    (∀ x, rlookup statePrivAndShared.shared_instances BUS_SESSION = some x →
      x ≠ 0) ∧
    ((rlookup statePrivAndShared.shared_instances BUS_SESSION = none →
      bus_close 0 BUS_SESSION statePrivAndShared =
        Except.error PyErr.keyError) ∧
    (∀ x, rlookup statePrivAndShared.shared_instances BUS_SESSION = some x →
      bus_close 0 BUS_SESSION statePrivAndShared =
        Except.ok { statePrivAndShared with
                      closed := 0 :: statePrivAndShared.closed })) := by
  have hnot : ∀ x,
      rlookup statePrivAndShared.shared_instances BUS_SESSION = some x →
      x ≠ 0 := by
    intro x hx
    have h1 : rlookup statePrivAndShared.shared_instances BUS_SESSION =
        some 1 := rfl
    rw [h1] at hx
    cases hx
    decide
  exact ⟨hnot, C4_private_close hnot⟩

/-- Claim C5: acquire a shared handle `a` for a kind, close it, acquire
again: the result `b` is a freshly constructed object distinct from `a`,
and the registry's entry for the kind is `b`. -/
theorem C5_eviction_correctness {k a b : Nat} {ok1 ok2 : Bool}
    {s s1 s2 s3 : BusState} (hwf : WF s)
    (h1 : bus_new k false ok1 s = Except.ok (a, s1))
    (h2 : bus_close a k s1 = Except.ok s2)
    (h3 : bus_new k false ok2 s2 = Except.ok (b, s3)) :
    b ≠ a ∧ rlookup s2.handles b = none ∧
      rlookup s3.shared_instances k = some b :=
  ⟨(acquire_close_acquire hwf h1 h2 h3).1,
   (acquire_close_acquire hwf h1 h2 h3).2.2,
   (acquire_close_acquire hwf h1 h2 h3).2.1⟩

theorem C5_eviction_correctness_witness :
    bus_new BUS_SESSION false true initState = Except.ok (0, stateShared) ∧
    bus_close 0 BUS_SESSION stateShared = Except.ok stateEvicted ∧
    bus_new BUS_SESSION false true stateEvicted =
      Except.ok (1, stateReplaced) ∧
    ((1 : Nat) ≠ 0 ∧ rlookup stateEvicted.handles 1 = none ∧
      rlookup stateReplaced.shared_instances BUS_SESSION = some 1) := by
  have hmain := @C5_eviction_correctness BUS_SESSION 0 1 true true initState
    stateShared stateEvicted stateReplaced WF_initState rfl rfl rfl
  exact ⟨rfl, rfl, rfl, hmain⟩

/-- Claim C6: a private acquisition constructs a fresh connection (a new
object id, one more transport construction) that differs from every
registered shared handle of every kind, and it leaves the shared-instance
registry exactly as it was. -/
theorem C6_private_isolation {k b : Nat} {s s' : BusState} (hwf : WF s)
    (h : bus_new k true true s = Except.ok (b, s')) :
    s'.shared_instances = s.shared_instances ∧
    (∀ t x, rlookup s.shared_instances t = some x → x ≠ b) ∧
    rlookup s.handles b = none ∧
    s'.constructions = s.constructions + 1 := by
  rcases bus_new_ok_cases h with ⟨hp, _, _⟩ | ⟨_, _, _, hb, rfl⟩
  · cases hp
  · subst hb
    refine ⟨rfl, ?_, rlookup_fresh hwf, rfl⟩
    intro t x hx hxb
    have h5 := hwf.2.2.1 _ (rlookup_mem hx)
    have h6 := hwf.1 _ (rlookup_mem h5)
    omega

theorem C6_private_isolation_witness :
    bus_new BUS_SESSION true true stateShared =
      Except.ok (1, stateSharedAndPriv) ∧
    (stateSharedAndPriv.shared_instances = stateShared.shared_instances ∧
    (∀ t x, rlookup stateShared.shared_instances t = some x → x ≠ 1) ∧
    rlookup stateShared.handles 1 = none ∧
    stateSharedAndPriv.constructions = stateShared.constructions + 1) := by
  have hwfS : WF stateShared := by decide
  have hmain := @C6_private_isolation BUS_SESSION 1 stateShared
    stateSharedAndPriv hwfS rfl
  exact ⟨rfl, hmain⟩

/-- Claim C7: when the cache is not hit (so construction is attempted for a
valid kind) and the underlying `BusConnection.__new__` raises, the
acquisition propagates the failure synchronously as `connectError` and the
whole process state — in particular the shared-instance registry — is left
exactly as it was: insertion happens only after successful construction. -/
theorem C7_construct_failure {k : Nat} {priv : Bool} {s : BusState}
    (hv : validBT k)
    (hmiss : rlookup s.shared_instances k = none) :
    bus_new k priv false s = Except.error PyErr.connectError ∧
    runOp s (Op.acquire k priv false) = s := by
  have hb : bus_new k priv false s = Except.error PyErr.connectError := by
    unfold bus_new
    rw [if_neg (fun hc => hc.2 hmiss), if_pos hv]
    rfl
  exact ⟨hb, by simp [runOp, hb]⟩

theorem C7_construct_failure_witness :
    validBT BUS_SYSTEM ∧
    rlookup initState.shared_instances BUS_SYSTEM = none ∧
    (bus_new BUS_SYSTEM false false initState =
      Except.error PyErr.connectError ∧
    runOp initState (Op.acquire BUS_SYSTEM false false) = initState) := by
  exact ⟨by decide, rfl, @C7_construct_failure BUS_SYSTEM false initState
    (by decide) rfl⟩

/-- Claim C8: for every bus type outside the three recognized constants,
acquisition with any privacy flag and any transport outcome raises
`ValueError` from the subclass-selection chain, constructs nothing and
leaves the registry (indeed the whole state) unchanged.  The cache-hit
branch cannot fire because a well-formed registry only holds valid kinds. -/
theorem C8_invalid_kind {bt : Nat} {priv ok : Bool} {s : BusState}
    (hwf : WF s) (hbt : ¬validBT bt) :
    bus_new bt priv ok s = Except.error PyErr.valueError ∧
    runOp s (Op.acquire bt priv ok) = s := by
  have hmiss : rlookup s.shared_instances bt = none := by
    cases hx : rlookup s.shared_instances bt with
    | none => rfl
    | some v => exact absurd (hwf.2.2.2.2.1 _ (rlookup_mem hx)) hbt
  have hb : bus_new bt priv ok s = Except.error PyErr.valueError := by
    unfold bus_new
    rw [if_neg (fun hc => hc.2 hmiss), if_neg hbt]
  exact ⟨hb, by simp [runOp, hb]⟩

theorem C8_invalid_kind_witness :
    WF stateShared ∧ ¬validBT 7 ∧
    (bus_new 7 false true stateShared = Except.error PyErr.valueError ∧
    runOp stateShared (Op.acquire 7 false true) = stateShared) := by
  exact ⟨by decide, by decide,
    @C8_invalid_kind 7 false true stateShared (by decide) (by decide)⟩

/-- Claim C9: registry liveness.  After any sequence of acquisitions and
`close()` calls through the public interface, every entry of the
shared-instance map is a connection on which the superclass transport close
has never been invoked: `close()` removes a shared handle's own entry
(identity check) in the same call that marks it closed, so a closed
connection is never left registered. -/
theorem C9_registry_liveness (tr : List Op) (t i : Nat)
    (h : rlookup (run tr initState).shared_instances t = some i) :
    i ∉ (run tr initState).closed :=
  (WF_run tr).2.2.2.1 _ (rlookup_mem h)

theorem C9_registry_liveness_witness :
    rlookup (run [Op.acquire BUS_SESSION false true, Op.close 0,
        Op.acquire BUS_SESSION false true]
      initState).shared_instances BUS_SESSION = some 1 ∧
    1 ∉ (run [Op.acquire BUS_SESSION false true, Op.close 0,
        Op.acquire BUS_SESSION false true] initState).closed := by
  exact ⟨by decide, C9_registry_liveness [Op.acquire BUS_SESSION false true,
    Op.close 0, Op.acquire BUS_SESSION false true] BUS_SESSION 1 (by decide)⟩

/-- Claim C10: for every constructed handle whose bus type currently has no
entry in the shared-instance registry, `close()` raises `KeyError` from the
unguarded dict lookup on line 118, the state is unchanged, and the
superclass transport close is never invoked for that call. -/
theorem C10_close_keyerror {i t : Nat} {s : BusState}
    (hh : rlookup s.handles i = some t)
    (hmiss : rlookup s.shared_instances t = none) :
    bus_close i t s = Except.error PyErr.keyError ∧
    runOp s (Op.close i) = s := by
  have hb : bus_close i t s = Except.error PyErr.keyError := by
    unfold bus_close
    rw [hmiss]
  exact ⟨hb, by simp [runOp, hh, hb]⟩

theorem C10_close_keyerror_witness :
    rlookup statePrivate.handles 0 = some BUS_SESSION ∧
    rlookup statePrivate.shared_instances BUS_SESSION = none ∧
    (bus_close 0 BUS_SESSION statePrivate = Except.error PyErr.keyError ∧
    runOp statePrivate (Op.close 0) = statePrivate) := by
  exact ⟨rfl, rfl, @C10_close_keyerror 0 BUS_SESSION statePrivate rfl rfl⟩
